import Mathlib

/-!
Verification of the multi-calendar date rendering engine in
`internal/output` (file `part_002` of the repository `l22-io/vies-query`).

The Go source is shallowly embedded over `Int`.  Go's integer division and
remainder truncate toward zero, so they are modelled by `Int.tdiv` and
`Int.tmod` (here `goDiv` / `goMod`).  Reference formulas written from the
specification use Lean's `/` on `Int`, which for positive divisors is
mathematical floor division.
-/

/-- Go integer division: truncates toward zero. -/
def goDiv (a b : Int) : Int := Int.tdiv a b

/-- Go integer remainder: sign follows the dividend. -/
def goMod (a b : Int) : Int := Int.tmod a b

/-- Embedding of `ordinalSuffix` (part_002 lines 85-100): the English
ordinal suffix for a day number, with the 11/12/13 exception checked
before the last-digit rule. -/
def ordinalSuffix (day : Int) : String :=
  if goMod day 100 = 11 ∨ goMod day 100 = 12 ∨ goMod day 100 = 13 then "th"
  else if goMod day 10 = 1 then "st"
  else if goMod day 10 = 2 then "nd"
  else if goMod day 10 = 3 then "rd"
  else "th"

/-- Embedding of `monthName` (part_002 lines 102-131): Gregorian/Julian
month names, empty string outside 1..12. -/
def monthName (m : Int) : String :=
  if m = 1 then "January" else if m = 2 then "February"
  else if m = 3 then "March" else if m = 4 then "April"
  else if m = 5 then "May" else if m = 6 then "June"
  else if m = 7 then "July" else if m = 8 then "August"
  else if m = 9 then "September" else if m = 10 then "October"
  else if m = 11 then "November" else if m = 12 then "December"
  else ""

/-- Embedding of `gregorianToJDN` (part_002 lines 140-146), with Go's
truncating division exactly as in the source. -/
def gregorianToJDN (y m d : Int) : Int :=
  let a := goDiv (14 - m) 12
  let y2 := y + 4800 - a
  let m2 := m + 12 * a - 3
  d + goDiv (153 * m2 + 2) 5 + 365 * y2 + goDiv y2 4 - goDiv y2 100 + goDiv y2 400 - 32045

/-- The specification's JDN formula with mathematical floor division
(`/` on `Int` floors for the positive divisors used here): with
`a = floor((14-month)/12)`, `y = year+4800-a`, `m = month+12a-3`,
`jdn = day + floor((153m+2)/5) + 365y + floor(y/4) - floor(y/100) + floor(y/400) - 32045`. -/
def gregorianToJDNFloor (y m d : Int) : Int :=
  let a := (14 - m) / 12
  let y2 := y + 4800 - a
  let m2 := m + 12 * a - 3
  d + (153 * m2 + 2) / 5 + 365 * y2 + y2 / 4 - y2 / 100 + y2 / 400 - 32045

/-- Embedding of `jdnToJulian` (part_002 lines 148-157): JDN to Julian
calendar date, with Go's truncating division. -/
def jdnToJulian (jdn : Int) : Int × Int × Int :=
  let c := jdn + 32082
  let dd := goDiv (4 * c + 3) 1461
  let e := c - goDiv (1461 * dd) 4
  let m := goDiv (5 * e + 2) 153
  let day := e - goDiv (153 * m + 2) 5 + 1
  let month := m + 3 - 12 * goDiv m 10
  let year := dd - 4800 + goDiv m 10
  (year, month, day)

/-- Embedding of `julianFromGregorian` (part_002 lines 134-138). -/
def julianFromGregorian (y m d : Int) : Int × Int × Int :=
  jdnToJulian (gregorianToJDN y m d)

/-- Modelled from the spec: the standard Julian-calendar-to-JDN reference
formula (the `julianToJDN` inverse named by the spec's round-trip law,
not present in src/): with `a = floor((14-m)/12)`, `y2 = y+4800-a`,
`m2 = m+12a-3`, `jdn = d + floor((153 m2+2)/5) + 365 y2 + floor(y2/4) - 32083`. -/
def julianToJDNRef (y m d : Int) : Int :=
  let a := (14 - m) / 12
  let y2 := y + 4800 - a
  let m2 := m + 12 * a - 3
  d + (153 * m2 + 2) / 5 + 365 * y2 + y2 / 4 - 32083

/-- Embedding of the era table of `japaneseEra` (part_002 lines 162-172). -/
structure EraDef where
  name : String
  y : Int
  m : Int
  d : Int
deriving DecidableEq

/-- The fixed descending era table (part_002 lines 166-172). -/
def eras : List EraDef :=
  [⟨"Reiwa", 2019, 5, 1⟩, ⟨"Heisei", 1989, 1, 8⟩, ⟨"Showa", 1926, 12, 25⟩,
   ⟨"Taisho", 1912, 7, 30⟩, ⟨"Meiji", 1868, 10, 23⟩]

/-- Embedding of `afterOrEqual` (part_002 lines 182-190): lexicographic
`(y,m,d) >= (y2,m2,d2)`, year first, then month, then day. -/
def afterOrEqual (y m d y2 m2 d2 : Int) : Bool :=
  if y ≠ y2 then decide (y > y2)
  else if m ≠ m2 then decide (m > m2)
  else decide (d ≥ d2)

/-- The loop of `japaneseEra` (part_002 lines 173-179): first era of the
table whose start is lexicographically at most the date; the sentinel
`("Pre-Meiji", y)` when none matches. -/
def japaneseEraLoop : List EraDef → Int → Int → Int → String × Int
  | [], y, _, _ => ("Pre-Meiji", y)
  | e :: rest, y, m, d =>
    if afterOrEqual y m d e.y e.m e.d then (e.name, y - e.y + 1)
    else japaneseEraLoop rest y m d

/-- Embedding of `japaneseEra` (part_002 lines 160-180). -/
def japaneseEra (y m d : Int) : String × Int := japaneseEraLoop eras y m d

/-- Body of `islamicCivilFromGregorian` (part_002 lines 193-205) after the
initial `jdn := gregorianToJDN(y, m, d)`; this is the `jdnToIslamicCivil`
operation named by the spec.  Go's truncating division throughout. -/
def islamicCivilFromJDN (jdn : Int) : Int × Int × Int :=
  let l0 := jdn - 1948440 + 10632
  let n := goDiv (l0 - 1) 10631
  let l1 := l0 - 10631 * n + 354
  let j1 := goDiv (10985 - l1) 5316 * goDiv (50 * l1) 17719 +
            goDiv l1 5670 * goDiv (43 * l1) 15238
  let l2 := l1 - goDiv (30 - j1) 15 * goDiv (17719 * j1) 50 -
            goDiv j1 16 * goDiv (15238 * j1) 43 + 29
  let im := goDiv (24 * l2) 709
  let idy := l2 - goDiv (709 * im) 24
  let iy := 30 * n + j1 - 30
  (iy, im, idy)

/-- Embedding of `islamicCivilFromGregorian` (part_002 lines 193-205). -/
def islamicCivilFromGregorian (y m d : Int) : Int × Int × Int :=
  islamicCivilFromJDN (gregorianToJDN y m d)

/-- Modelled from the spec: the standard civil tabular Hijri
date-to-JDN reference formula (30-year cycle of 10631 days, epoch offset
1948440, so 1 Muharram 1 AH falls on JDN 1948440):
`jdn = d + ceil(29.5 (m-1)) + 354 (y-1) + floor((3+11y)/30) + 1948439`,
with `ceil(29.5 k)` written as `floor((59 k + 1)/2)`. -/
def islamicToJDNRef (y m d : Int) : Int :=
  d + (59 * (m - 1) + 1) / 2 + 354 * (y - 1) + (3 + 11 * y) / 30 + 1948439

/-- Embedding of `islamicMonthName` (part_002 lines 207-236). -/
def islamicMonthName (m : Int) : String :=
  if m = 1 then "Muharram" else if m = 2 then "Safar"
  else if m = 3 then "Rabi\x27 al-awwal" else if m = 4 then "Rabi\x27 al-thani"
  else if m = 5 then "Jumada al-awwal" else if m = 6 then "Jumada al-thani"
  else if m = 7 then "Rajab" else if m = 8 then "Sha\x27ban"
  else if m = 9 then "Ramadan" else if m = 10 then "Shawwal"
  else if m = 11 then "Dhu al-Qi\x27dah" else if m = 12 then "Dhu al-Hijjah"
  else ""

/-- Embedding of `hebrewYearApprox` (part_002 lines 240-252). -/
def hebrewYearApprox (gy gm gd : Int) : Int :=
  if gm > 9 then gy + 3761
  else if gm < 9 then gy + 3760
  else if gd ≥ 20 then gy + 3761
  else gy + 3760

/-- Go `time.Weekday.String`: English weekday names, Sunday = 0. -/
def weekdayName (w : Int) : String :=
  if w = 0 then "Sunday" else if w = 1 then "Monday"
  else if w = 2 then "Tuesday" else if w = 3 then "Wednesday"
  else if w = 4 then "Thursday" else if w = 5 then "Friday"
  else if w = 6 then "Saturday" else ""

/-- Go weekday of a Gregorian calendar day, Sunday = 0.  Go's `time`
package derives the weekday from an exact day count since the epoch;
JDN 2440588 (1970-01-01) is a Thursday (= 4), and `(jdn + 1) mod 7`
reproduces Go's numbering for every day. -/
def goWeekday (y m d : Int) : Int :=
  (gregorianToJDNFloor y m d + 1) % 7

/-- JDN to proleptic-Gregorian date with floor division; models the exact
civil-date arithmetic of Go's `time` package (`absDate`), used by
`ISOWeek`. -/
def jdnToGregorian (jdn : Int) : Int × Int × Int :=
  let a := jdn + 32044
  let b := (4 * a + 3) / 146097
  let c := a - 146097 * b / 4
  let dd := (4 * c + 3) / 1461
  let e := c - 1461 * dd / 4
  let m := (5 * e + 2) / 153
  let day := e - (153 * m + 2) / 5 + 1
  let month := m + 3 - 12 * (m / 10)
  let year := 100 * b + dd - 4800 + m / 10
  (year, month, day)

/-- Go `time.Time.ISOWeek` for a calendar day: move to the Thursday of
the ISO week containing the day (ISO weeks run Monday through Sunday and
`jdn mod 7 = 0` on Mondays), then the ISO year is that Thursday's
calendar year and the week number is its zero-based day-of-year divided
by 7, plus one. -/
def isoWeekOf (y m d : Int) : Int × Int :=
  let jdn := gregorianToJDNFloor y m d
  let thu := jdn - jdn % 7 + 3
  let ty := (jdnToGregorian thu).1
  (ty, (thu - gregorianToJDNFloor ty 1 1) / 7 + 1)

/-- Wall-clock components of a Go `time.Time` value in its location.  The
rendering code reads only the year, month and day; the remaining
components are carried to state the claims about them. -/
structure GoTime where
  year : Int
  month : Int
  day : Int
  hour : Int
  minute : Int
  second : Int
  nanosecond : Int

/-- Zero-pad a digit string on the left to width `w`. -/
def padZeros (w : Nat) (s : String) : String :=
  String.mk (List.replicate (w - s.length) '0') ++ s

/-- Go `fmt.Sprintf` with a `%0wd` verb: zero-padded to total width `w`,
the sign included in the width. -/
def sprintfPad (w : Nat) (n : Int) : String :=
  if n < 0 then "-" ++ padZeros (w - 1) (toString n.natAbs)
  else padZeros w (toString n.natAbs)

/-- Go `time.Time.Format` year field `"2006"`: the year's digits
zero-padded to four, after any sign. -/
def goYear4 (n : Int) : String :=
  if n < 0 then "-" ++ padZeros 4 (toString n.natAbs)
  else padZeros 4 (toString n.natAbs)

/-- Embedding of `verboseCalendarSentence` (part_002 lines 47-83).  The
package-level `calendar` selection is passed explicitly.  Go's
`t.Weekday().String()` and `t.Month().String()` are modelled by
`weekdayName`/`monthName` of the calendar-day components. -/
def verboseCalendarSentence (calendar : String) (t : GoTime) : String :=
  let weekday := weekdayName (goWeekday t.year t.month t.day)
  let gregMonth := monthName t.month
  let day := t.day
  let sfx := ordinalSuffix day
  let y := t.year
  if calendar = "gregorian" then
    "This request was made on " ++ weekday ++ ", " ++ gregMonth ++ " " ++
      toString day ++ sfx ++ " of the year " ++ toString y ++ " of the common era."
  else if calendar = "buddhist" then
    "This request was made on " ++ weekday ++ ", " ++ gregMonth ++ " " ++
      toString day ++ sfx ++ " of the year " ++ toString (y + 543) ++ " of the Buddhist Era."
  else if calendar = "minguo" then
    "This request was made on " ++ weekday ++ ", " ++ gregMonth ++ " " ++
      toString day ++ sfx ++ " of the year " ++ toString (y - 1911) ++ " of the Minguo calendar."
  else if calendar = "julian" then
    let t3 := julianFromGregorian y t.month day
    "This request was made on " ++ weekday ++ ", " ++ monthName t3.2.1 ++ " " ++
      toString t3.2.2 ++ ordinalSuffix t3.2.2 ++ " of the year " ++ toString t3.1 ++
      " of the Julian calendar."
  else if calendar = "japanese" then
    let e := japaneseEra y t.month day
    "This request was made on " ++ weekday ++ ", " ++ gregMonth ++ " " ++
      toString day ++ sfx ++ " in " ++ e.1 ++ " " ++ toString e.2 ++ " of the Japanese calendar."
  else if calendar = "islamic" then
    let t3 := islamicCivilFromGregorian y t.month day
    "This request was made on " ++ weekday ++ ", " ++ islamicMonthName t3.2.1 ++ " " ++
      toString t3.2.2 ++ ordinalSuffix t3.2.2 ++ " in year " ++ toString t3.1 ++
      " AH of the Islamic (Hijri) calendar."
  else if calendar = "hebrew" then
    "This request was made on " ++ weekday ++ ", " ++ gregMonth ++ " " ++
      toString day ++ sfx ++ " in year " ++ toString (hebrewYearApprox y t.month day) ++
      " AM of the Hebrew calendar (tabular approximation)."
  else
    "This request was made on " ++ weekday ++ ", " ++ gregMonth ++ " " ++
      toString day ++ sfx ++ " of the year " ++ toString y ++ " of the common era."

/-- Embedding of `FormatRequestDate` (part_002 lines 23-45).  The
package-level `dateStyle` and `calendar` selections are passed
explicitly.  In the source the `"gce-verbose"` case falls through to the
`default` case, so both are covered by the final branch here.  The
`unix` branch is Go's `time.Date(y, m, d, 0, 0, 0, 0, UTC).Unix()`,
which equals `86400 * (jdn - 2440588)` for the day's JDN. -/
def FormatRequestDate (dateStyle calendar : String) (t : GoTime) : String :=
  if dateStyle = "iso-date" then
    goYear4 t.year ++ "-" ++ sprintfPad 2 t.month ++ "-" ++ sprintfPad 2 t.day
  else if dateStyle = "rfc3339" then
    goYear4 t.year ++ "-" ++ sprintfPad 2 t.month ++ "-" ++ sprintfPad 2 t.day ++ "T00:00:00Z"
  else if dateStyle = "unix" then
    toString (86400 * (gregorianToJDNFloor t.year t.month t.day - 2440588))
  else if dateStyle = "iso-week" then
    let yw := isoWeekOf t.year t.month t.day
    let wd0 := goWeekday t.year t.month t.day
    let isoWd := if wd0 = 0 then 7 else wd0
    sprintfPad 4 yw.1 ++ "-W" ++ sprintfPad 2 yw.2 ++ "-" ++ toString isoWd
  else verboseCalendarSentence calendar t

/-- Proleptic-Gregorian leap year: divisible by 4, except centuries not
divisible by 400. -/
def isLeapGregorian (y : Int) : Bool :=
  (y % 4 = 0 && y % 100 ≠ 0) || y % 400 = 0

/-- Number of days of a month under proleptic-Gregorian rules. -/
def daysInMonth (y m : Int) : Int :=
  if m = 2 then (if isLeapGregorian y then 29 else 28)
  else if m = 4 ∨ m = 6 ∨ m = 9 ∨ m = 11 then 30
  else 31

/-- Calendar validity of a proleptic-Gregorian date. -/
def validDate (y m d : Int) : Bool :=
  1 ≤ m && m ≤ 12 && 1 ≤ d && d ≤ daysInMonth y m

/-- The calendar day after a proleptic-Gregorian date. -/
def nextDate (y m d : Int) : Int × Int × Int :=
  if d < daysInMonth y m then (y, m, d + 1)
  else if m < 12 then (y, m + 1, 1)
  else (y + 1, 1, 1)

/-- JDN of a `(year, month, day)` triple, via the source conversion. -/
def jdnOfTriple (t : Int × Int × Int) : Int := gregorianToJDN t.1 t.2.1 t.2.2

/-- Modelled from the spec: src/ contains no reachable date-validity
check of its own — request dates enter through Go's `time.Parse` in the
SOAP client (part_004 lines 247-258), which rejects a day out of range
for its month and year with a descriptive error that the client wraps
and returns; a `time.Time` reaching `FormatRequestDate` is always a
valid date.  Per spec section 7, an invalid input date must fail with a
descriptive error and never be clamped, wrapped, or rendered. -/
def renderRequestDate (dateStyle calendar : String) (y m d : Int) : Except String String :=
  if validDate y m d then
    Except.ok (FormatRequestDate dateStyle calendar ⟨y, m, d, 0, 0, 0, 0⟩)
  else
    Except.error ("Failed to parse request date: day " ++ toString d ++
      " out of range for month " ++ toString m ++ " of year " ++ toString y)

/-- C8: for every day between 1 and 31, `ordinalSuffix` returns "th" on
the 11/12/13 exception and otherwise follows the last-digit rule
(1 "st", 2 "nd", 3 "rd", else "th"); in particular at 1, 2, 3, 4, 11,
12, 13, 21, 22, 23. -/
theorem ordinalSuffix_spec :
    (∀ d : Int, 1 ≤ d → d ≤ 31 →
      ordinalSuffix d =
        (if d % 100 = 11 ∨ d % 100 = 12 ∨ d % 100 = 13 then "th"
         else if d % 10 = 1 then "st"
         else if d % 10 = 2 then "nd"
         else if d % 10 = 3 then "rd"
         else "th"))
    ∧ ordinalSuffix 1 = "st" ∧ ordinalSuffix 2 = "nd" ∧ ordinalSuffix 3 = "rd"
    ∧ ordinalSuffix 4 = "th" ∧ ordinalSuffix 11 = "th" ∧ ordinalSuffix 12 = "th"
    ∧ ordinalSuffix 13 = "th" ∧ ordinalSuffix 21 = "st" ∧ ordinalSuffix 22 = "nd"
    ∧ ordinalSuffix 23 = "rd" := by
  refine ⟨?_, by decide, by decide, by decide, by decide, by decide, by decide,
    by decide, by decide, by decide, by decide⟩
  intro d h1 h2
  interval_cases d <;> decide

/-- C8 witness: the general rule applied at day 21. -/
theorem ordinalSuffix_spec_witness :
    ordinalSuffix 21 =
      (if (21 : Int) % 100 = 11 ∨ (21 : Int) % 100 = 12 ∨ (21 : Int) % 100 = 13 then "th"
       else if (21 : Int) % 10 = 1 then "st"
       else if (21 : Int) % 10 = 2 then "nd"
       else if (21 : Int) % 10 = 3 then "rd"
       else "th") :=
  ordinalSuffix_spec.1 21 (by decide) (by decide)

/-- C5: a style outside the five supported ones together with a calendar
outside the seven supported ones falls back silently to the default
verbose Gregorian common-era sentence; the renderer is a total function
into strings, so no error can reach the caller. -/
theorem unknown_style_calendar_fallback (style cal : String) (t : GoTime)
    (hs : style ∉ ["gce-verbose", "iso-date", "rfc3339", "unix", "iso-week"])
    (hc : cal ∉ ["gregorian", "julian", "buddhist", "minguo", "japanese", "islamic", "hebrew"]) :
    FormatRequestDate style cal t =
      "This request was made on " ++ weekdayName (goWeekday t.year t.month t.day) ++ ", " ++
        monthName t.month ++ " " ++ toString t.day ++ ordinalSuffix t.day ++
        " of the year " ++ toString t.year ++ " of the common era." := by
  simp only [List.mem_cons, List.not_mem_nil, or_false, not_or] at hs hc
  obtain ⟨-, h2, h3, h4, h5⟩ := hs
  obtain ⟨c1, c2, c3, c4, c5, c6, c7⟩ := hc
  simp only [FormatRequestDate, verboseCalendarSentence, if_neg h2, if_neg h3, if_neg h4,
    if_neg h5, if_neg c1, if_neg c2, if_neg c3, if_neg c4, if_neg c5, if_neg c6, if_neg c7]

/-- C5 witness: fallback at a concrete unsupported style and calendar. -/
theorem unknown_style_calendar_fallback_witness :
    FormatRequestDate "fancy" "klingon" ⟨2025, 9, 9, 12, 30, 0, 0⟩ =
      "This request was made on Tuesday, September 9th of the year 2025 of the common era." := by
  have h := unknown_style_calendar_fallback "fancy" "klingon" ⟨2025, 9, 9, 12, 30, 0, 0⟩
    (by decide) (by decide)
  rw [h]
  decide

/-- C9: the iso-date, rfc3339, unix and iso-week renderings are
identical under any two calendar settings, while the verbose path does
consult the calendar selection. -/
theorem nonverbose_calendar_invariant :
    (∀ (style cal1 cal2 : String) (t : GoTime),
      style = "iso-date" ∨ style = "rfc3339" ∨ style = "unix" ∨ style = "iso-week" →
      FormatRequestDate style cal1 t = FormatRequestDate style cal2 t)
    ∧ FormatRequestDate "gce-verbose" "gregorian" ⟨2025, 9, 9, 0, 0, 0, 0⟩ ≠
        FormatRequestDate "gce-verbose" "buddhist" ⟨2025, 9, 9, 0, 0, 0, 0⟩ := by
  constructor
  · rintro style cal1 cal2 t (rfl | rfl | rfl | rfl) <;> rfl
  · decide

/-- C9 witness: calendar invariance of the unix style at a concrete date. -/
theorem nonverbose_calendar_invariant_witness :
    FormatRequestDate "unix" "gregorian" ⟨1970, 1, 1, 5, 6, 7, 8⟩ =
      FormatRequestDate "unix" "japanese" ⟨1970, 1, 1, 5, 6, 7, 8⟩ :=
  nonverbose_calendar_invariant.1 "unix" "gregorian" "japanese" ⟨1970, 1, 1, 5, 6, 7, 8⟩
    (by decide)

/-- C10: the rendered string depends only on the year, month and day
components of the input time; hour, minute, second and nanosecond never
influence the result, for every style and calendar. -/
theorem formatRequestDate_day_determined (style cal : String) (t1 t2 : GoTime)
    (hy : t1.year = t2.year) (hm : t1.month = t2.month) (hd : t1.day = t2.day) :
    FormatRequestDate style cal t1 = FormatRequestDate style cal t2 := by
  cases t1
  cases t2
  simp only at hy hm hd
  subst hy
  subst hm
  subst hd
  rfl

/-- C10 witness: identical output across different times of the same day. -/
theorem formatRequestDate_day_determined_witness :
    FormatRequestDate "iso-week" "gregorian" ⟨2025, 9, 9, 1, 2, 3, 4⟩ =
      FormatRequestDate "iso-week" "gregorian" ⟨2025, 9, 9, 23, 59, 59, 999⟩ :=
  formatRequestDate_day_determined "iso-week" "gregorian" _ _ rfl rfl rfl

/-- Bridging lemma: for months 1..12 and years at least -4799, every
truncating division in `gregorianToJDN` has a nonnegative dividend, so
the source function agrees with the floor formula. -/
theorem gregToJDN_eq_floor (y m d : Int) (hm1 : 1 ≤ m) (hm2 : m ≤ 12) (hy : -4799 ≤ y) :
    gregorianToJDN y m d = gregorianToJDNFloor y m d := by
  simp only [gregorianToJDN, gregorianToJDNFloor, goDiv]
  rw [Int.tdiv_eq_ediv (show (0:Int) ≤ 14 - m by omega) (by omega)]
  have h1 : (0:Int) ≤ 153 * (m + 12 * ((14 - m) / 12) - 3) + 2 := by omega
  have h2 : (0:Int) ≤ y + 4800 - (14 - m) / 12 := by omega
  rw [Int.tdiv_eq_ediv h1 (by omega), Int.tdiv_eq_ediv h2 (by omega),
    Int.tdiv_eq_ediv h2 (by omega), Int.tdiv_eq_ediv h2 (by omega)]

/-- Extracts the month and day bounds from date validity. -/
theorem validDate_bounds (y m d : Int) (hv : validDate y m d = true) :
    1 ≤ m ∧ m ≤ 12 ∧ 1 ≤ d ∧ d ≤ daysInMonth y m := by
  simp only [validDate, Bool.and_eq_true, decide_eq_true_eq] at hv
  exact ⟨hv.1.1.1, hv.1.1.2, hv.1.2, hv.2⟩

/-- C1 (amended): restricted to calendar-valid dates with year at least
-4799 (so that `y + 4800 - a` is nonnegative and Go's truncating
division coincides with the mathematical floor), `gregorianToJDN`
returns exactly the standard astronomical JDN formula with mathematical
floor division. -/
theorem gregorianToJDN_floor_formula (y m d : Int) (hv : validDate y m d = true)
    (hy : -4799 ≤ y) : gregorianToJDN y m d = gregorianToJDNFloor y m d := by
  obtain ⟨hm1, hm2, -, -⟩ := validDate_bounds y m d hv
  exact gregToJDN_eq_floor y m d hm1 hm2 hy

/-- C1 witness: the formula agreement at 2025-09-09. -/
theorem gregorianToJDN_floor_formula_witness :
    gregorianToJDN 2025 9 9 = gregorianToJDNFloor 2025 9 9 :=
  gregorianToJDN_floor_formula 2025 9 9 (by decide) (by decide)

/-- C1 counterexample: -4800-01-01 is a calendar-valid proleptic
Gregorian date, but the source's truncating division deviates from the
claimed mathematical-floor formula there (the code yields -32103, the
floor formula -32104). -/
theorem gregorianToJDN_floor_cex :
    validDate (-4800) 1 1 = true ∧
    gregorianToJDN (-4800) 1 1 ≠ gregorianToJDNFloor (-4800) 1 1 := by decide

/-- C2: a request date whose day is out of range for its month and year
is rejected with a descriptive error result and is never rendered. -/
theorem invalid_date_errors (style cal : String) (y m d : Int)
    (hv : validDate y m d = false) :
    renderRequestDate style cal y m d =
      Except.error ("Failed to parse request date: day " ++ toString d ++
        " out of range for month " ++ toString m ++ " of year " ++ toString y) ∧
    ∀ s : String, renderRequestDate style cal y m d ≠ Except.ok s := by
  unfold renderRequestDate
  rw [hv]
  exact ⟨rfl, fun s h => by simp at h⟩

/-- C2 witness: February 30 is rejected. -/
theorem invalid_date_errors_witness :
    renderRequestDate "gce-verbose" "gregorian" 2021 2 30 =
      Except.error "Failed to parse request date: day 30 out of range for month 2 of year 2021" := by
  have h := invalid_date_errors "gce-verbose" "gregorian" 2021 2 30 (by decide)
  rw [h.1]
  rfl

/-- Unfolds `afterOrEqual` into the lexicographic order on triples. -/
theorem afterOrEqual_iff (y m d a b c : Int) :
    afterOrEqual y m d a b c = true ↔
      a < y ∨ (a = y ∧ b < m) ∨ (a = y ∧ b = m ∧ c ≤ d) := by
  unfold afterOrEqual
  split_ifs with h1 h2 <;> simp <;> omega

/-- C4: for dates on or after 1868-10-23, `japaneseEra` returns the era
of the fixed descending table whose start date is the lexicographically
greatest one at most the input date, with era year `y - startYear + 1`;
earlier dates get the sentinel `("Pre-Meiji", y)`; and the four boundary
examples hold. -/
theorem japaneseEra_spec :
    (∀ y m d : Int, afterOrEqual y m d 1868 10 23 = true →
      ∃ e, e ∈ eras ∧ japaneseEra y m d = (e.name, y - e.y + 1) ∧
        afterOrEqual y m d e.y e.m e.d = true ∧
        ∀ f, f ∈ eras → afterOrEqual y m d f.y f.m f.d = true →
          afterOrEqual e.y e.m e.d f.y f.m f.d = true)
    ∧ (∀ y m d : Int, afterOrEqual y m d 1868 10 23 = false →
        japaneseEra y m d = ("Pre-Meiji", y))
    ∧ japaneseEra 1989 1 7 = ("Showa", 64)
    ∧ japaneseEra 1989 1 8 = ("Heisei", 1)
    ∧ japaneseEra 2019 4 30 = ("Heisei", 31)
    ∧ japaneseEra 2019 5 1 = ("Reiwa", 1) := by
  refine ⟨?_, ?_, by decide, by decide, by decide, by decide⟩
  · intro y m d h
    simp only [japaneseEra, eras, japaneseEraLoop]
    split_ifs with h1 h2 h3 h4
    · refine ⟨⟨"Reiwa", 2019, 5, 1⟩, by decide, rfl, h1, ?_⟩
      intro f hf hfle
      fin_cases hf <;> decide
    · refine ⟨⟨"Heisei", 1989, 1, 8⟩, by decide, rfl, h2, ?_⟩
      intro f hf hfle
      fin_cases hf
      · exact absurd hfle h1
      all_goals decide
    · refine ⟨⟨"Showa", 1926, 12, 25⟩, by decide, rfl, h3, ?_⟩
      intro f hf hfle
      fin_cases hf
      · exact absurd hfle h1
      · exact absurd hfle h2
      all_goals decide
    · refine ⟨⟨"Taisho", 1912, 7, 30⟩, by decide, rfl, h4, ?_⟩
      intro f hf hfle
      fin_cases hf
      · exact absurd hfle h1
      · exact absurd hfle h2
      · exact absurd hfle h3
      all_goals decide
    · refine ⟨⟨"Meiji", 1868, 10, 23⟩, by decide, rfl, h, ?_⟩
      intro f hf hfle
      fin_cases hf
      · exact absurd hfle h1
      · exact absurd hfle h2
      · exact absurd hfle h3
      · exact absurd hfle h4
      · decide
  · intro y m d h
    have h9 : ¬(afterOrEqual y m d 1868 10 23 = true) := by simp [h]
    simp only [japaneseEra, eras, japaneseEraLoop]
    split_ifs with h1 h2 h3 h4
    · rw [afterOrEqual_iff] at h1 h9
      omega
    · rw [afterOrEqual_iff] at h2 h9
      omega
    · rw [afterOrEqual_iff] at h3 h9
      omega
    · rw [afterOrEqual_iff] at h4 h9
      omega
    · rfl

/-- C4 witness: the general characterisation applied at 1989-01-08. -/
theorem japaneseEra_spec_witness :
    ∃ e, e ∈ eras ∧ japaneseEra 1989 1 8 = (e.name, 1989 - e.y + 1) ∧
      afterOrEqual 1989 1 8 e.y e.m e.d = true ∧
      ∀ f, f ∈ eras → afterOrEqual 1989 1 8 f.y f.m f.d = true →
        afterOrEqual e.y e.m e.d f.y f.m f.d = true :=
  japaneseEra_spec.1 1989 1 8 (by decide)

/-- Boolean leap-year test unfolded to arithmetic. -/
theorem isLeap_iff (y : Int) :
    isLeapGregorian y = true ↔ (y % 4 = 0 ∧ y % 100 ≠ 0) ∨ y % 400 = 0 := by
  simp [isLeapGregorian]

/-- Advancing a valid date by one calendar day increases the floor-form
JDN by exactly one. -/
theorem nextDate_jdnFloor (y m d : Int) (hm1 : 1 ≤ m) (hm2 : m ≤ 12) (hd1 : 1 ≤ d)
    (hd2 : d ≤ daysInMonth y m) :
    gregorianToJDNFloor (nextDate y m d).1 (nextDate y m d).2.1 (nextDate y m d).2.2 =
      gregorianToJDNFloor y m d + 1 := by
  unfold nextDate
  unfold daysInMonth at hd2 ⊢
  interval_cases m <;>
    (try simp only [isLeap_iff, Int.reduceEq, or_self, or_true, true_or, or_false, false_or,
      not_false_eq_true, if_true, if_false, ite_true, ite_false] at hd2 ⊢) <;>
    split_ifs at hd2 ⊢ <;>
    simp only [gregorianToJDNFloor, Int.reduceSub, Int.reduceDiv, Int.reduceAdd,
      Int.reduceMul] <;>
    omega

/-- Advancing a valid date with year at least -4799 by one day increases
the source `gregorianToJDN` by exactly one. -/
theorem nextDate_gregorianToJDN (y m d : Int) (hv : validDate y m d = true)
    (hy : -4799 ≤ y) : jdnOfTriple (nextDate y m d) = gregorianToJDN y m d + 1 := by
  obtain ⟨hm1, hm2, hd1, hd2⟩ := validDate_bounds y m d hv
  have hfl := nextDate_jdnFloor y m d hm1 hm2 hd1 hd2
  rw [gregToJDN_eq_floor y m d hm1 hm2 hy, ← hfl]
  unfold jdnOfTriple
  unfold nextDate at hfl ⊢
  split_ifs with a1 a2
  · exact gregToJDN_eq_floor y m (d + 1) hm1 hm2 hy
  · exact gregToJDN_eq_floor y (m + 1) 1 (by omega) (by omega) hy
  · exact gregToJDN_eq_floor (y + 1) 1 1 (by omega) (by omega) (by omega)

/-- C6 (amended): restricted to calendar-valid dates with year at least
-4799, `gregorianToJDN` is strictly monotone under advancing the date by
one calendar day.  At year -4800 and below Go's truncating division
breaks the formula and monotonicity can fail. -/
theorem gregorianToJDN_strictMono_succ (y m d : Int) (hv : validDate y m d = true)
    (hy : -4799 ≤ y) : gregorianToJDN y m d < jdnOfTriple (nextDate y m d) := by
  have h := nextDate_gregorianToJDN y m d hv hy
  omega

/-- C6 witness: strict increase across the 2025 year boundary. -/
theorem gregorianToJDN_strictMono_succ_witness :
    gregorianToJDN 2025 12 31 < jdnOfTriple (nextDate 2025 12 31) :=
  gregorianToJDN_strictMono_succ 2025 12 31 (by decide) (by decide)

/-- C6 counterexample: -4800-02-29 is calendar-valid (year -4800 is
divisible by 400, hence leap) and its successor is -4800-03-01, yet the
source function returns the same JDN for both, refuting strict
monotonicity over all valid proleptic dates. -/
theorem gregorianToJDN_strictMono_cex :
    validDate (-4800) 2 29 = true ∧ nextDate (-4800) 2 29 = (-4800, 3, 1) ∧
    ¬(gregorianToJDN (-4800) 2 29 < jdnOfTriple (nextDate (-4800) 2 29)) := by decide

/-- For every nonnegative JDN, converting to a Julian calendar date with
the source `jdnToJulian` and mapping back with the standard reference
formula reproduces the JDN. -/
theorem julian_inv (j : Int) (hj : 0 ≤ j) :
    julianToJDNRef (jdnToJulian j).1 (jdnToJulian j).2.1 (jdnToJulian j).2.2 = j := by
  simp only [jdnToJulian, goDiv]
  rw [Int.tdiv_eq_ediv (show (0:Int) ≤ 4 * (j + 32082) + 3 by omega) (by omega)]
  have h1 : (0:Int) ≤ 1461 * ((4 * (j + 32082) + 3) / 1461) := by
    have : (0:Int) ≤ (4 * (j + 32082) + 3) / 1461 := by omega
    omega
  rw [Int.tdiv_eq_ediv h1 (by omega)]
  have h2 : (0:Int) ≤ 5 * (j + 32082 - 1461 * ((4 * (j + 32082) + 3) / 1461) / 4) + 2 := by
    omega
  rw [Int.tdiv_eq_ediv h2 (by omega)]
  have h3 : (0:Int) ≤
      153 * ((5 * (j + 32082 - 1461 * ((4 * (j + 32082) + 3) / 1461) / 4) + 2) / 153) + 2 := by
    omega
  rw [Int.tdiv_eq_ediv h3 (by omega)]
  have h4 : (0:Int) ≤ (5 * (j + 32082 - 1461 * ((4 * (j + 32082) + 3) / 1461) / 4) + 2) / 153 := by
    omega
  rw [Int.tdiv_eq_ediv h4 (by omega)]
  simp only [julianToJDNRef]
  set M := (5 * (j + 32082 - 1461 * ((4 * (j + 32082) + 3) / 1461) / 4) + 2) / 153 with hM
  set D := (4 * (j + 32082) + 3) / 1461 with hD
  have hMb : 0 ≤ M ∧ M ≤ 11 := by
    constructor <;> omega
  by_cases hm : M ≤ 9
  · have hg : M / 10 = 0 := by omega
    rw [hg]
    have ha : (14 - (M + 3 - 12 * 0)) / 12 = 0 := by omega
    rw [ha]
    omega
  · have hg : M / 10 = 1 := by omega
    rw [hg]
    have ha : (14 - (M + 3 - 12 * 1)) / 12 = 1 := by omega
    rw [ha]
    omega

/-- C3: for every calendar-valid Gregorian date from 1800-01-01 to
2200-12-31, `gregorianToJDN` followed by `jdnToJulian` followed by the
standard Julian-calendar-to-JDN reference formula reproduces the JDN
exactly. -/
theorem julian_roundtrip (y m d : Int) (hv : validDate y m d = true)
    (h1 : 1800 ≤ y) (h2 : y ≤ 2200) :
    julianToJDNRef (julianFromGregorian y m d).1 (julianFromGregorian y m d).2.1
      (julianFromGregorian y m d).2.2 = gregorianToJDN y m d := by
  obtain ⟨hm1, hm2, hd1, hd2⟩ := validDate_bounds y m d hv
  have hnn : 0 ≤ gregorianToJDN y m d := by
    rw [gregToJDN_eq_floor y m d hm1 hm2 (by omega)]
    simp only [gregorianToJDNFloor]
    omega
  unfold julianFromGregorian
  exact julian_inv (gregorianToJDN y m d) hnn

/-- C3 witness: the round trip at 2025-09-09. -/
theorem julian_roundtrip_witness :
    julianToJDNRef (julianFromGregorian 2025 9 9).1 (julianFromGregorian 2025 9 9).2.1
      (julianFromGregorian 2025 9 9).2.2 = gregorianToJDN 2025 9 9 :=
  julian_roundtrip 2025 9 9 (by decide) (by decide) (by decide)

/-- For every JDN at or after the civil Hijri epoch 1948440, the source
tabular conversion yields a month in 1..12 and a day in 1..30, and the
standard civil tabular reference formula maps the result back to the
same JDN. -/
theorem islamic_inv (j : Int) (hj : 1948440 ≤ j) :
    (1 ≤ (islamicCivilFromJDN j).2.1 ∧ (islamicCivilFromJDN j).2.1 ≤ 12) ∧
    (1 ≤ (islamicCivilFromJDN j).2.2 ∧ (islamicCivilFromJDN j).2.2 ≤ 30) ∧
    islamicToJDNRef (islamicCivilFromJDN j).1 (islamicCivilFromJDN j).2.1
      (islamicCivilFromJDN j).2.2 = j := by
  simp only [islamicCivilFromJDN, goDiv]
  rw [Int.tdiv_eq_ediv (show (0:Int) ≤ j - 1948440 + 10632 - 1 by omega) (by omega)]
  set N := (j - 1948440 + 10632 - 1) / 10631 with hN
  set L := j - 1948440 + 10632 - 10631 * N + 354 with hL
  have hLb : 355 ≤ L ∧ L ≤ 10985 := by constructor <;> omega
  rw [Int.tdiv_eq_ediv (show (0:Int) ≤ 10985 - L by omega) (by omega),
    Int.tdiv_eq_ediv (show (0:Int) ≤ 50 * L by omega) (by omega),
    Int.tdiv_eq_ediv (show (0:Int) ≤ L by omega) (by omega),
    Int.tdiv_eq_ediv (show (0:Int) ≤ 43 * L by omega) (by omega)]
  by_cases hs : L ≤ 5669
  · have e1 : (10985 - L) / 5316 = 1 := by omega
    have e2 : L / 5670 = 0 := by omega
    rw [e1, e2]
    simp only [one_mul, zero_mul, add_zero]
    set J := 50 * L / 17719 with hJ
    have hJb : 1 ≤ J ∧ J ≤ 15 := by constructor <;> omega
    have e3 : (30 - J) / 15 = 1 := by omega
    have e4 : J / 16 = 0 := by omega
    rw [Int.tdiv_eq_ediv (show (0:Int) ≤ 30 - J by omega) (by omega),
      Int.tdiv_eq_ediv (show (0:Int) ≤ 17719 * J by omega) (by omega),
      Int.tdiv_eq_ediv (show (0:Int) ≤ J by omega) (by omega),
      Int.tdiv_eq_ediv (show (0:Int) ≤ 15238 * J by omega) (by omega)]
    rw [e3, e4]
    simp only [one_mul, zero_mul, sub_zero]
    set T := 17719 * J / 50 with hT
    have hTb : T ≤ L ∧ 0 ≤ T := by constructor <;> omega
    rw [Int.tdiv_eq_ediv (show (0:Int) ≤ 24 * (L - T + 29) by omega) (by omega)]
    set M := 24 * (L - T + 29) / 709 with hM
    rw [Int.tdiv_eq_ediv (show (0:Int) ≤ 709 * M by omega) (by omega)]
    simp only [islamicToJDNRef]
    obtain ⟨hJ1, hJ2⟩ := hJb
    clear_value J
    have hMb : 1 ≤ M ∧ M ≤ 12 := by
      constructor <;> (interval_cases J <;> omega)
    have hrel : 709 * M / 24 = 29 + (59 * (M - 1) + 1) / 2 ∧
        709 * M / 24 ≤ L - T + 29 - 1 ∧ L - T + 29 - 30 ≤ 709 * M / 24 := by
      obtain ⟨hM1, hM2⟩ := hMb
      clear_value M
      interval_cases M <;> exact ⟨by omega, by omega, by omega⟩
    refine ⟨hMb, ⟨by omega, by omega⟩, ?_⟩
    interval_cases J <;> omega
  · have e1 : (10985 - L) / 5316 = 0 := by omega
    have e2 : L / 5670 = 1 := by omega
    rw [e1, e2]
    simp only [zero_mul, one_mul, zero_add]
    set J := 43 * L / 15238 with hJ
    have hJb : 16 ≤ J ∧ J ≤ 30 := by constructor <;> omega
    have e3 : (30 - J) / 15 = 0 := by omega
    have e4 : J / 16 = 1 := by omega
    rw [Int.tdiv_eq_ediv (show (0:Int) ≤ 30 - J by omega) (by omega),
      Int.tdiv_eq_ediv (show (0:Int) ≤ 17719 * J by omega) (by omega),
      Int.tdiv_eq_ediv (show (0:Int) ≤ J by omega) (by omega),
      Int.tdiv_eq_ediv (show (0:Int) ≤ 15238 * J by omega) (by omega)]
    rw [e3, e4]
    simp only [zero_mul, one_mul, sub_zero]
    set T := 15238 * J / 43 with hT
    have hTb : T ≤ L ∧ 0 ≤ T := by constructor <;> omega
    rw [Int.tdiv_eq_ediv (show (0:Int) ≤ 24 * (L - T + 29) by omega) (by omega)]
    set M := 24 * (L - T + 29) / 709 with hM
    rw [Int.tdiv_eq_ediv (show (0:Int) ≤ 709 * M by omega) (by omega)]
    simp only [islamicToJDNRef]
    obtain ⟨hJ1, hJ2⟩ := hJb
    clear_value J
    have hMb : 1 ≤ M ∧ M ≤ 12 := by
      constructor <;> (interval_cases J <;> omega)
    have hrel : 709 * M / 24 = 29 + (59 * (M - 1) + 1) / 2 ∧
        709 * M / 24 ≤ L - T + 29 - 1 ∧ L - T + 29 - 30 ≤ 709 * M / 24 := by
      obtain ⟨hM1, hM2⟩ := hMb
      clear_value M
      interval_cases M <;> exact ⟨by omega, by omega, by omega⟩
    refine ⟨hMb, ⟨by omega, by omega⟩, ?_⟩
    interval_cases J <;> omega

/-- C7: for every calendar-valid Gregorian date whose JDN is at least
1948440, `islamicCivilFromGregorian` returns a tabular civil Islamic
date with month in 1..12 and day in 1..30 whose reference JDN (30-year
cycle of 10631 days, epoch offset 1948440) is exactly the date's JDN. -/
theorem islamic_civil_roundtrip (y m d : Int) (_hv : validDate y m d = true)
    (hj : 1948440 ≤ gregorianToJDN y m d) :
    (1 ≤ (islamicCivilFromGregorian y m d).2.1 ∧ (islamicCivilFromGregorian y m d).2.1 ≤ 12) ∧
    (1 ≤ (islamicCivilFromGregorian y m d).2.2 ∧ (islamicCivilFromGregorian y m d).2.2 ≤ 30) ∧
    islamicToJDNRef (islamicCivilFromGregorian y m d).1 (islamicCivilFromGregorian y m d).2.1
      (islamicCivilFromGregorian y m d).2.2 = gregorianToJDN y m d := by
  unfold islamicCivilFromGregorian
  exact islamic_inv (gregorianToJDN y m d) hj

/-- C7 witness: the Islamic round trip at 2025-09-09. -/
theorem islamic_civil_roundtrip_witness :
    islamicToJDNRef (islamicCivilFromGregorian 2025 9 9).1 (islamicCivilFromGregorian 2025 9 9).2.1
      (islamicCivilFromGregorian 2025 9 9).2.2 = gregorianToJDN 2025 9 9 :=
  (islamic_civil_roundtrip 2025 9 9 (by decide) (by decide)).2.2
